import Mathlib

/-!
# Verification of the postgres-mcp-server tool layer

A shallow embedding of `src/postgres-mcp-server/main.py`: a catalogue of
database-introspection tools over PostgreSQL, each tool a function from a
modelled database state to a result (or an error).

Modelling conventions:
* SQL values are `Value` (null, integer, arbitrary-precision numeric as `ℚ`,
  string).  The driver's numeric results are modelled exactly as rationals.
* The database is a list of schemas, each a list of tables; the
  `information_schema.columns` catalog view is derived from it.  Name
  resolution for an interpolated `FROM {table}` uses the `public` schema
  (the default `search_path`).
* Engine-side statement failures are `SqlError`; client-side Python
  exceptions that the code can raise (`TypeError` from subscripting a
  `None` returned by `fetchone()`, psycopg2's "no results to fetch"
  `ProgrammingError` after a statement that returns no rows) are separate
  constructors of `Err`.
* Python's `round(x, 2)` (round-half-to-even) is `pyRound2` on `ℚ`.
* psycopg2's `with connect(...) as conn:` commits the transaction on normal
  exit and rolls it back on an exception; it does **not** close the
  connection.  This discipline is reflected by `connTrace`.
-/

/-- A SQL value as held in a table cell or returned by the driver. -/
inductive Value where
  | vnull : Value
  | vint : Int → Value
  | vnum : ℚ → Value
  | vstr : String → Value
deriving DecidableEq, Repr

/-- Numeric reading of a value, when it has one. -/
def numVal : Value → Option ℚ
  | Value.vint n => some (n : ℚ)
  | Value.vnum q => some q
  | _ => none

/-- Engine-side statement failures (reported by PostgreSQL at execution time). -/
inductive SqlError where
  | undefinedTable : String → SqlError
  | undefinedColumn : String → SqlError
  | typeMismatch : SqlError
  | negativeLimit : SqlError
deriving DecidableEq, Repr

/-- A tool-call failure: either an engine error propagated by the driver, or a
client-side Python exception raised inside the tool body. -/
inductive Err where
  | engine : SqlError → Err
  | pyTypeError : Err
  | noResultsToFetch : Err
deriving DecidableEq, Repr

/-- A column of a table: name and declared data type (as the
`information_schema.columns.data_type` string, e.g. `"integer"`). -/
structure Column where
  colName : String
  dataType : String
deriving DecidableEq, Repr

/-- A table: name, declared columns in ordinal position order, and rows
(each row a list of values, positionally matching the columns). -/
structure Table where
  name : String
  cols : List Column
  rows : List (List Value)
deriving DecidableEq, Repr

/-- A schema of the database (e.g. `public`). -/
structure Schema where
  name : String
  tables : List Table
deriving DecidableEq, Repr

/-- The whole database: all schemas, with their catalog order. -/
structure Database where
  schemas : List Schema
deriving DecidableEq, Repr

/-- The `information_schema.columns` view: one `(table_schema, table_name,
column)` entry per column of every table, in catalog order (`ordinal_position`
order within a table). -/
def infoSchemaColumns (db : Database) : List (String × String × Column) :=
  db.schemas.flatMap fun s =>
    s.tables.flatMap fun t =>
      t.cols.map fun c => (s.name, t.name, c)

/-- Catalog rows with `table_name = t` (no schema filter). -/
def catColsAnySchema (db : Database) (t : String) : List Column :=
  ((infoSchemaColumns db).filter fun x => x.2.1 == t).map fun x => x.2.2

/-- Catalog rows with `table_name = t AND table_schema = 'public'`. -/
def catColsPublic (db : Database) (t : String) : List Column :=
  ((infoSchemaColumns db).filter fun x => x.1 == "public" && x.2.1 == t).map
    fun x => x.2.2

/-- First catalog `data_type` for `table_name = t AND column_name = c`
(no schema filter) — what `fetchone()` sees for `get_column_stats`. -/
def catTypeAnySchema (db : Database) (t c : String) : Option String :=
  (((infoSchemaColumns db).filter fun x => x.2.1 == t && x.2.2.colName == c).map
    fun x => x.2.2.dataType).head?

/-- First catalog `data_type` for `table_name = t AND column_name = c AND
table_schema = 'public'` — what `fetchone()` sees for `check_empty_strings`. -/
def catTypePublic (db : Database) (t c : String) : Option String :=
  (((infoSchemaColumns db).filter fun x =>
      x.1 == "public" && x.2.1 == t && x.2.2.colName == c).map
    fun x => x.2.2.dataType).head?

/-- Resolve an interpolated `FROM {table}` identifier: the first table of that
name in the `public` schema, else the engine's undefined-table error. -/
def resolveTable (db : Database) (t : String) : Except SqlError Table :=
  match db.schemas.find? (fun s => s.name == "public") with
  | none => Except.error (SqlError.undefinedTable t)
  | some s =>
    match s.tables.find? (fun tb => tb.name == t) with
    | none => Except.error (SqlError.undefinedTable t)
    | some tb => Except.ok tb

/-- Index of the first column with the given name, if any. -/
def colIndexAux (c : String) : List Column → Option Nat
  | [] => none
  | col :: rest =>
    if col.colName == c then some 0 else (colIndexAux c rest).map (fun i => i + 1)

/-- Resolve a column identifier inside a resolved table to its positional
index, else the engine's undefined-column error. -/
def colIndex (tbl : Table) (c : String) : Except SqlError Nat :=
  match colIndexAux c tbl.cols with
  | none => Except.error (SqlError.undefinedColumn c)
  | some i => Except.ok i

/-- The values stored in column `i` of a table, one per row. -/
def colValues (tbl : Table) (i : Nat) : List Value :=
  tbl.rows.map fun r => r.getD i Value.vnull

/-- SQL `COUNT(*)` over a table. -/
def countStar (tbl : Table) : Nat := tbl.rows.length

/-- SQL `COUNT(*) ... WHERE col IS NULL` over column `i`. -/
def countNullsAt (tbl : Table) (i : Nat) : Nat :=
  (colValues tbl i).countP (fun v => v == Value.vnull)

/-- SQL `COUNT(DISTINCT col)`: distinct values, with NULLs skipped (SQL aggregate
semantics). -/
def countDistinct (vals : List Value) : Nat :=
  ((vals.filter fun v => ! (v == Value.vnull)).dedup).length

/-- Numeric readings of the non-NULL values of a column, for MIN/MAX/AVG;
an engine type-mismatch error if a non-NULL value is not numeric. -/
def numsOf : List Value → Except SqlError (List ℚ)
  | [] => Except.ok []
  | Value.vnull :: rest => numsOf rest
  | v :: rest =>
    match numVal v with
    | some q => (numsOf rest).map (fun l => q :: l)
    | none => Except.error SqlError.typeMismatch

/-- SQL `MIN` over the numeric readings (NULL when no non-NULL input). -/
def listMinQ : List ℚ → Option ℚ
  | [] => none
  | q :: rest => some (rest.foldl min q)

/-- SQL `MAX` over the numeric readings (NULL when no non-NULL input). -/
def listMaxQ : List ℚ → Option ℚ
  | [] => none
  | q :: rest => some (rest.foldl max q)

/-- SQL `AVG` over the numeric readings (NULL when no non-NULL input). -/
def aggAvg (nums : List ℚ) : Option ℚ :=
  if nums.length = 0 then none else some (nums.sum / (nums.length : ℚ))

/-- Floor of a rational, computed on its normalized representation. -/
def ratFloor (q : ℚ) : Int := Int.fdiv q.num (q.den : Int)

/-- Round-half-to-even to an integer (Python's `round(_, 0)` tie rule). -/
def roundHalfEven (q : ℚ) : Int :=
  let f : Int := ratFloor q
  let r : ℚ := q - (f : ℚ)
  if r < 1 / 2 then f
  else if (1 : ℚ) / 2 < r then f + 1
  else if f % 2 = 0 then f else f + 1

/-- Python's `round(q, 2)`. -/
def pyRound2 (q : ℚ) : ℚ := (roundHalfEven (q * 100) : ℚ) / 100

/-- The code's percentage idiom: `round((a / b * 100) if b > 0 else 0, 2)`. -/
def pctOf (a b : Nat) : ℚ :=
  pyRound2 (if 0 < b then (a : ℚ) / (b : ℚ) * 100 else 0)

/-- A result row as returned through `RealDictCursor`: column name → value. -/
def rowToDict (cols : List Column) (row : List Value) : List (String × Value) :=
  (cols.zip row).map fun p => (p.1.colName, p.2)

/-- The SQL statements `execute_sql` is exercised with in this development: a
full-table scan, a plain `INSERT`, and an `INSERT ... RETURNING *`.  (The tool
accepts arbitrary SQL text; this fragment suffices for the claims about it.) -/
inductive SqlStmt where
  | selectAll : String → SqlStmt
  | insertPlain : String → List Value → SqlStmt
  | insertReturning : String → List Value → SqlStmt
deriving DecidableEq, Repr

/-- Append a row to the named `public` table (the effect of an `INSERT`). -/
def insertRowDb (db : Database) (t : String) (row : List Value) : Database :=
  ⟨db.schemas.map fun s =>
    if s.name == "public" then
      ⟨s.name, s.tables.map fun tb =>
        if tb.name == t then ⟨tb.name, tb.cols, tb.rows ++ [row]⟩ else tb⟩
    else s⟩

/-- Tool `execute_sql(query)`: run the statement, `fetchall()` the rows, commit.
Returns the fetched rows and the (possibly updated) database.  A statement
that produces no result set makes `fetchall()` raise psycopg2's "no results
to fetch" `ProgrammingError`; the exception makes the connection scope roll
the transaction back, so the database is unchanged on every error. -/
def execute_sql (db : Database) (q : SqlStmt) :
    Except Err (List (List (String × Value)) × Database) :=
  match q with
  | SqlStmt.selectAll t =>
    match resolveTable db t with
    | Except.error e => Except.error (Err.engine e)
    | Except.ok tbl => Except.ok (tbl.rows.map (rowToDict tbl.cols), db)
  | SqlStmt.insertPlain t _row =>
    match resolveTable db t with
    | Except.error e => Except.error (Err.engine e)
    | Except.ok _ => Except.error Err.noResultsToFetch
  | SqlStmt.insertReturning t row =>
    match resolveTable db t with
    | Except.error e => Except.error (Err.engine e)
    | Except.ok tbl =>
      Except.ok ([rowToDict tbl.cols row], insertRowDb db t row)

/-- Tool `list_tables()`: names of the tables of the `public` schema,
`ORDER BY table_name`. -/
def list_tables (db : Database) : List String :=
  ((db.schemas.filter fun s => s.name == "public").flatMap fun s =>
    s.tables.map (fun tb => tb.name)).insertionSort (fun a b => a ≤ b)

/-- Tool `get_schema(table)`: `SELECT column_name, data_type FROM
information_schema.columns WHERE table_name = %s` — note: **no**
`table_schema` filter.  Cannot fail: a nonexistent name just matches zero
catalog rows. -/
def get_schema (db : Database) (t : String) : List (String × String) :=
  (catColsAnySchema db t).map fun c => (c.colName, c.dataType)

/-- Output shape of `get_table_stats`. -/
structure TableStats where
  table : String
  row_count : Nat
  column_count : Nat
  size : String
deriving DecidableEq, Repr

/-- The on-disk size is storage-dependent; it is modelled abstractly as a
deterministic function of the table (`pg_size_pretty(pg_total_relation_size)`
has no content the claims depend on). -/
def pgSizePretty (tbl : Table) : String :=
  toString tbl.rows.length ++ " kB"

/-- Tool `get_table_stats(table)`: `COUNT(*)` on the table (engine error if it does
not exist), column count from the `public` catalog, pretty size. -/
def get_table_stats (db : Database) (t : String) : Except Err TableStats :=
  match resolveTable db t with
  | Except.error e => Except.error (Err.engine e)
  | Except.ok tbl =>
    Except.ok
      { table := t
        row_count := countStar tbl
        column_count := (catColsPublic db t).length
        size := pgSizePretty tbl }

/-- One output entry of `check_null_values`. -/
structure NullEntry where
  column : String
  null_count : Nat
  null_percentage : ℚ
  non_null_count : Nat
deriving DecidableEq, Repr

/-- The per-column body of `check_null_values`' loop: count the NULLs of the
named column, derive percentage and non-null count. -/
def nullEntryFor (tbl : Table) (total : Nat) (c : String) :
    Except Err NullEntry :=
  match colIndex tbl c with
  | Except.error e => Except.error (Err.engine e)
  | Except.ok i =>
    let nc := countNullsAt tbl i
    Except.ok
      { column := c
        null_count := nc
        null_percentage := pctOf nc total
        non_null_count := total - nc }

/-- Tool `check_null_values(table)`: catalog columns of the `public` table in
`ordinal_position` order, then `COUNT(*)`, then one NULL-count query per
column, all on one connection. -/
def check_null_values (db : Database) (t : String) :
    Except Err (List NullEntry) :=
  let names := (catColsPublic db t).map fun c => c.colName
  match resolveTable db t with
  | Except.error e => Except.error (Err.engine e)
  | Except.ok tbl =>
    names.mapM (nullEntryFor tbl (countStar tbl))

/-- The recognized numeric `data_type` strings of `get_column_stats`. -/
def numericTypes : List String :=
  ["integer", "bigint", "smallint", "numeric", "real", "double precision",
   "decimal"]

/-- Output shape of `get_column_stats`; `numStats` is `some (min, max, avg)`
exactly when the numeric branch ran and added the three keys. -/
structure ColStats where
  column : String
  data_type : String
  distinct_count : Nat
  numStats : Option (Option ℚ × Option ℚ × Option ℚ)
deriving DecidableEq, Repr

/-- The `avg` field as the code computes it: `round(float(avg_val), 2) if avg_val else
None` — NULL *and* an average of exactly 0 are both falsy in Python. -/
def avgField (avgVal : Option ℚ) : Option ℚ :=
  match avgVal with
  | none => none
  | some q => if q = 0 then none else some (pyRound2 q)

/-- Tool `get_column_stats(table, column)`: catalog type lookup (no schema filter;
`fetchone()[0]` raises a Python `TypeError` when the lookup matches no row),
then `COUNT(DISTINCT col)`, then MIN/MAX/AVG when the type is numeric. -/
def get_column_stats (db : Database) (t c : String) : Except Err ColStats :=
  match catTypeAnySchema db t c with
  | none => Except.error Err.pyTypeError
  | some dt =>
    match resolveTable db t with
    | Except.error e => Except.error (Err.engine e)
    | Except.ok tbl =>
      match colIndex tbl c with
      | Except.error e => Except.error (Err.engine e)
      | Except.ok i =>
        let vals := colValues tbl i
        if dt ∈ numericTypes then
          match numsOf vals with
          | Except.error e => Except.error (Err.engine e)
          | Except.ok nums =>
            Except.ok
              { column := c
                data_type := dt
                distinct_count := countDistinct vals
                numStats :=
                  some (listMinQ nums, listMaxQ nums, avgField (aggAvg nums)) }
        else
          Except.ok
            { column := c
              data_type := dt
              distinct_count := countDistinct vals
              numStats := none }

/-- Tool `preview_data(table, limit)`: `SELECT * FROM {table} LIMIT %s`.  The
engine rejects a negative limit; otherwise the first `limit` rows in scan
order (modelled as storage order). -/
def preview_data (db : Database) (t : String) (limit : Int) :
    Except Err (List (List (String × Value))) :=
  match resolveTable db t with
  | Except.error e => Except.error (Err.engine e)
  | Except.ok tbl =>
    if limit < 0 then Except.error (Err.engine SqlError.negativeLimit)
    else Except.ok ((tbl.rows.take limit.toNat).map (rowToDict tbl.cols))

/-- Output shape of `check_duplicate_rows`. -/
structure DupStats where
  table : String
  columns : Option (List String)
  total_rows : Nat
  distinct_rows : Nat
  duplicate_rows : Nat
  duplicate_percentage : ℚ
deriving DecidableEq, Repr

/-- The `distinct_rows` query of `check_duplicate_rows`:
`SELECT COUNT(*) FROM (SELECT DISTINCT * FROM t)` when no columns are given;
`COUNT(DISTINCT col)` (NULLs skipped) for one column; `COUNT(DISTINCT
(c1, …, cn))` (composite values, never NULL as a whole) for several. -/
def distinctRowsQuery (tbl : Table) : List String → Except SqlError Nat
  | [] => Except.ok tbl.rows.dedup.length
  | [c] =>
    match colIndex tbl c with
    | Except.error e => Except.error e
    | Except.ok i => Except.ok (countDistinct (colValues tbl i))
  | cs =>
    match cs.mapM (colIndex tbl) with
    | Except.error e => Except.error e
    | Except.ok idxs =>
      Except.ok
        ((tbl.rows.map fun r => idxs.map fun i => r.getD i Value.vnull).dedup).length

/-- Tool `check_duplicate_rows(table, columns)`: `columns = columns or []`, then
total and distinct counts; `duplicate_rows = total - distinct`; percentage 0
when the table is empty; the `columns` field is `None` when the (defaulted)
list is empty. -/
def check_duplicate_rows (db : Database) (t : String)
    (columnsArg : Option (List String)) : Except Err DupStats :=
  let columns := columnsArg.getD []
  match resolveTable db t with
  | Except.error e => Except.error (Err.engine e)
  | Except.ok tbl =>
    match distinctRowsQuery tbl columns with
    | Except.error e => Except.error (Err.engine e)
    | Except.ok distinct =>
      let total := countStar tbl
      Except.ok
        { table := t
          columns := if columns.isEmpty then none else some columns
          total_rows := total
          distinct_rows := distinct
          duplicate_rows := total - distinct
          duplicate_percentage := pctOf (total - distinct) total }

/-- Tool `column_value_counts(table, column, limit)`: `GROUP BY` the column (NULL
is one group), count each group, `ORDER BY count DESC` (ties in an
engine-chosen order, modelled as first-occurrence order), `LIMIT %s`. -/
def column_value_counts (db : Database) (t c : String) (limit : Int) :
    Except Err (List (Value × Nat)) :=
  match resolveTable db t with
  | Except.error e => Except.error (Err.engine e)
  | Except.ok tbl =>
    match colIndex tbl c with
    | Except.error e => Except.error (Err.engine e)
    | Except.ok i =>
      if limit < 0 then Except.error (Err.engine SqlError.negativeLimit)
      else
        let vals := colValues tbl i
        let groups := vals.dedup.map fun v => (v, vals.count v)
        Except.ok
          ((groups.insertionSort fun a b => b.2 ≤ a.2).take limit.toNat)

/-- The text-like `data_type` strings of `check_empty_strings`. -/
def textTypes : List String := ["text", "character varying", "character"]

/-- Output shape of `check_empty_strings`. -/
structure EmptyStats where
  table : String
  column : String
  data_type : Option String
  empty_string_count : Nat
  empty_string_percentage : ℚ
  note : Option String
deriving DecidableEq, Repr

/-- Tool `check_empty_strings(table, column)`: catalog type lookup (public schema;
a missing row yields `data_type = None`, not an error), `COUNT(*)` on the
table, then — only for a text-like type — a count of values equal to `''`;
otherwise a zero count with an explanatory note. -/
def check_empty_strings (db : Database) (t c : String) :
    Except Err EmptyStats :=
  let dt := catTypePublic db t c
  match resolveTable db t with
  | Except.error e => Except.error (Err.engine e)
  | Except.ok tbl =>
    let total := countStar tbl
    match dt with
    | some d =>
      if d ∈ textTypes then
        match colIndex tbl c with
        | Except.error e => Except.error (Err.engine e)
        | Except.ok i =>
          let ec := (colValues tbl i).countP fun v => v == Value.vstr ""
          Except.ok
            { table := t, column := c, data_type := some d
              empty_string_count := ec
              empty_string_percentage := pctOf ec total
              note := none }
      else
        Except.ok
          { table := t, column := c, data_type := some d
            empty_string_count := 0
            empty_string_percentage := pyRound2 0
            note := some "column is not a text type" }
    | none =>
      Except.ok
        { table := t, column := c, data_type := none
          empty_string_count := 0
          empty_string_percentage := pyRound2 0
          note := some "column is not a text type" }


/-- One invocation of a tool of the catalogue, with its arguments.
`previewData`'s limit defaults to 5 and `columnValueCounts`' to 20 at the
MCP layer; they arrive here as explicit integers. -/
inductive ToolCall where
  | execSql : SqlStmt → ToolCall
  | listTables : ToolCall
  | getSchema : String → ToolCall
  | getTableStats : String → ToolCall
  | checkNullValues : String → ToolCall
  | getColumnStats : String → String → ToolCall
  | previewData : String → Int → ToolCall
  | checkDuplicateRows : String → Option (List String) → ToolCall
  | columnValueCounts : String → String → Int → ToolCall
  | checkEmptyStrings : String → String → ToolCall
deriving DecidableEq, Repr

/-- The possible return shapes of the tools. -/
inductive ToolResult where
  | rows : List (List (String × Value)) → ToolResult
  | names : List String → ToolResult
  | schema : List (String × String) → ToolResult
  | tstats : TableStats → ToolResult
  | nulls : List NullEntry → ToolResult
  | cstats : ColStats → ToolResult
  | dstats : DupStats → ToolResult
  | vcounts : List (Value × Nat) → ToolResult
  | estats : EmptyStats → ToolResult
deriving DecidableEq, Repr

/-- Dispatch a tool call against the database.  The returned database is the
state after the call's transaction: an error rolls the transaction back, so
`Except.error` always leaves the state as it was; only `execute_sql` can
commit a change. -/
def runTool (db : Database) : ToolCall → Except Err (ToolResult × Database)
  | ToolCall.execSql q =>
    (execute_sql db q).map fun p => (ToolResult.rows p.1, p.2)
  | ToolCall.listTables => Except.ok (ToolResult.names (list_tables db), db)
  | ToolCall.getSchema t => Except.ok (ToolResult.schema (get_schema db t), db)
  | ToolCall.getTableStats t =>
    (get_table_stats db t).map fun s => (ToolResult.tstats s, db)
  | ToolCall.checkNullValues t =>
    (check_null_values db t).map fun l => (ToolResult.nulls l, db)
  | ToolCall.getColumnStats t c =>
    (get_column_stats db t c).map fun s => (ToolResult.cstats s, db)
  | ToolCall.previewData t limit =>
    (preview_data db t limit).map fun l => (ToolResult.rows l, db)
  | ToolCall.checkDuplicateRows t cols =>
    (check_duplicate_rows db t cols).map fun s => (ToolResult.dstats s, db)
  | ToolCall.columnValueCounts t c limit =>
    (column_value_counts db t c limit).map fun l => (ToolResult.vcounts l, db)
  | ToolCall.checkEmptyStrings t c =>
    (check_empty_strings db t c).map fun s => (ToolResult.estats s, db)

/-- Connection lifecycle events of one tool invocation. -/
inductive ConnEvent where
  | acquire : ConnEvent
  | commit : ConnEvent
  | rollback : ConnEvent
  | close : ConnEvent
deriving DecidableEq, Repr

/-- The connection events of one tool invocation.  Every tool body is a
single `with psycopg2.connect(**DB_CONFIG) as conn:` block: one connection is
acquired; on normal exit `conn.__exit__` commits the transaction, on an
exception it rolls it back.  The block closes the *transaction* scope only —
psycopg2's connection context manager issues no `close()`. -/
def connTrace (db : Database) (c : ToolCall) : List ConnEvent :=
  match runTool db c with
  | Except.ok _ => [ConnEvent.acquire, ConnEvent.commit]
  | Except.error _ => [ConnEvent.acquire, ConnEvent.rollback]

/-!
## Concrete databases used as test inputs

`usersDb` is the spec's concrete scenario: table `users` with rows
`[(1, 'a'), (2, ''), (3, NULL)]`.  `zeroAvgDb` holds a numeric column whose
values average to exactly zero.  `shadowDb` holds two same-named tables in
different schemas. -/

/-- The spec's `users` table: integer `id`, text `name`. -/
def usersTable : Table :=
  ⟨"users", [⟨"id", "integer"⟩, ⟨"name", "text"⟩],
   [[Value.vint 1, Value.vstr "a"],
    [Value.vint 2, Value.vstr ""],
    [Value.vint 3, Value.vnull]]⟩

/-- A database whose `public` schema holds only `usersTable`. -/
def usersDb : Database := ⟨[⟨"public", [usersTable]⟩]⟩

/-- A one-column numeric table whose values average to exactly 0. -/
def zeroAvgTable : Table :=
  ⟨"readings", [⟨"delta", "integer"⟩], [[Value.vint 1], [Value.vint (-1)]]⟩

/-- A database whose `public` schema holds only `zeroAvgTable`. -/
def zeroAvgDb : Database := ⟨[⟨"public", [zeroAvgTable]⟩]⟩

/-- The one-column `public` table named `t` of `shadowDb`. -/
def shadowPubT : Table := ⟨"t", [⟨"a", "integer"⟩], []⟩

/-- A database where `public.t` has one column but a second schema `audit`
also holds a table named `t` (with one column `b`). -/
def shadowDb : Database :=
  ⟨[⟨"public", [shadowPubT]⟩, ⟨"audit", [⟨"t", [⟨"b", "text"⟩], []⟩]⟩]⟩

/-!
## Shared lemmas -/

/-- Rounding zero yields zero. -/
theorem pyRound2_zero : pyRound2 0 = 0 := by
  have h0 : roundHalfEven 0 = 0 := by
    simp only [roundHalfEven, ratFloor]
    norm_num
  simp [pyRound2, h0]

/-- The percentage idiom, branch by branch. -/
theorem pctOf_eq (a b : Nat) :
    pctOf a b = if 0 < b then pyRound2 ((a : ℚ) / (b : ℚ) * 100) else 0 := by
  by_cases hb : 0 < b <;> simp [pctOf, hb, pyRound2_zero]

/-- A `mapM` over `Except` succeeds pointwise: if every element maps to
`ok` of a described value, the whole traversal is `ok` of the `map`. -/
theorem mapM_ok_of_forall {α β ε : Type} (f : α → Except ε β) (g : α → β) :
    ∀ l : List α, (∀ a ∈ l, f a = Except.ok (g a)) →
      l.mapM f = Except.ok (l.map g) := by
  intro l
  induction l with
  | nil => intro _; rw [List.mapM_nil]; rfl
  | cons a rest ih =>
    intro h
    rw [List.mapM_cons, h a (List.mem_cons_self a rest),
      ih (fun x hx => h x (List.mem_cons_of_mem a hx))]
    rfl

/-- A member column name always resolves to some index. -/
theorem colIndexAux_isSome_of_mem (c : String) :
    ∀ cols : List Column, c ∈ cols.map (fun col => col.colName) →
      (colIndexAux c cols).isSome := by
  intro cols
  induction cols with
  | nil => intro h; simp at h
  | cons col rest ih =>
    intro h
    by_cases hc : col.colName == c
    · simp [colIndexAux, hc]
    · have : c ∈ rest.map (fun col => col.colName) := by
        rcases List.mem_cons.mp h with h1 | h1
        · exact absurd (by simp [h1] : col.colName == c) (by simpa using hc)
        · exact h1
      have := ih this
      simp [colIndexAux, hc]
      cases hx : colIndexAux c rest with
      | none => rw [hx] at this; simp at this
      | some i => simp

/-- The database produced by `INSERT INTO users VALUES (4, NULL) RETURNING *`
through `execute_sql` (the `with` block commits it). -/
def usersDbAfterInsert : Database :=
  ⟨[⟨"public",
     [⟨"users", [⟨"id", "integer"⟩, ⟨"name", "text"⟩],
      [[Value.vint 1, Value.vstr "a"],
       [Value.vint 2, Value.vstr ""],
       [Value.vint 3, Value.vnull],
       [Value.vint 4, Value.vnull]]⟩]⟩]⟩

/-- Whether a call is an `execute_sql` carrying an `INSERT ... RETURNING`
statement — the one statement shape in scope that commits a mutation. -/
def isInsertReturning : ToolCall → Bool
  | ToolCall.execSql (SqlStmt.insertReturning _ _) => true
  | _ => false

/-- An `Except.map` that pairs the payload with a fixed database can only
produce that database. -/
theorem map_pair_ok {α : Type} (x : Except Err α) (w : α → ToolResult)
    (db : Database) (r : ToolResult) (db' : Database)
    (h : x.map (fun v => (w v, db)) = Except.ok (r, db')) : db' = db := by
  cases x with
  | error e => simp [Except.map] at h
  | ok v =>
    simp [Except.map] at h
    exact h.2.symm

/-- C7 counterexample: `execute_sql` with `INSERT INTO users VALUES (4, NULL)
RETURNING *` succeeds (the scoped connection commits it) and leaves the
database changed, contradicting "the database state after the call equals the
database state before it" for every operation and input. -/
theorem C7_counterexample :
    runTool usersDb
        (ToolCall.execSql (SqlStmt.insertReturning "users"
          [Value.vint 4, Value.vnull])) =
      Except.ok
        (ToolResult.rows [[("id", Value.vint 4), ("name", Value.vnull)]],
         usersDbAfterInsert) ∧
    usersDbAfterInsert ≠ usersDb :=
  ⟨rfl, by decide⟩

/-- C7 (amended): every tool call except `execute_sql` with an
`INSERT ... RETURNING` statement leaves the database state unchanged: the
nine introspection tools are read-only, and a plain `INSERT` through
`execute_sql` fails at `fetchall()` and is rolled back.  Only
`execute_sql` with mutating SQL whose result set is fetchable commits a
change. -/
theorem C7_amended (db : Database) (call : ToolCall) (r : ToolResult)
    (db' : Database) (hmut : isInsertReturning call = false)
    (hrun : runTool db call = Except.ok (r, db')) : db' = db := by
  cases call with
  | execSql q =>
    cases q with
    | selectAll t =>
      simp only [runTool, execute_sql] at hrun
      cases hres : resolveTable db t with
      | error e => rw [hres] at hrun; simp [Except.map] at hrun
      | ok tbl =>
        rw [hres] at hrun
        simp [Except.map] at hrun
        exact hrun.2.symm
    | insertPlain t row =>
      simp only [runTool, execute_sql] at hrun
      cases hres : resolveTable db t with
      | error e => rw [hres] at hrun; simp [Except.map] at hrun
      | ok tbl => rw [hres] at hrun; simp [Except.map] at hrun
    | insertReturning t row => simp [isInsertReturning] at hmut
  | listTables =>
    simp only [runTool] at hrun
    simp at hrun
    exact hrun.2.symm
  | getSchema t =>
    simp only [runTool] at hrun
    simp at hrun
    exact hrun.2.symm
  | getTableStats t =>
    exact map_pair_ok _ _ _ _ _ hrun
  | checkNullValues t =>
    exact map_pair_ok _ _ _ _ _ hrun
  | getColumnStats t c =>
    exact map_pair_ok _ _ _ _ _ hrun
  | previewData t limit =>
    exact map_pair_ok _ _ _ _ _ hrun
  | checkDuplicateRows t cols =>
    exact map_pair_ok _ _ _ _ _ hrun
  | columnValueCounts t c limit =>
    exact map_pair_ok _ _ _ _ _ hrun
  | checkEmptyStrings t c =>
    exact map_pair_ok _ _ _ _ _ hrun

/-- C7 witness: a read-only call (`list_tables`) at a concrete database,
with the amendment's hypotheses discharged concretely. -/
theorem C7_witness :
    isInsertReturning ToolCall.listTables = false ∧
    runTool usersDb ToolCall.listTables =
      Except.ok (ToolResult.names ["users"], usersDb) ∧
    usersDb = usersDb :=
  ⟨rfl, rfl,
   C7_amended usersDb ToolCall.listTables (ToolResult.names ["users"])
     usersDb rfl rfl⟩

/-- C8 counterexample: the connection-scope trace of a tool call — on a
success path and on an engine-failure path — contains no `close` event:
psycopg2's connection context manager commits or rolls back but does not
close, contradicting "released — committed or rolled back and closed — on
every exit path". -/
theorem C8_counterexample :
    ConnEvent.close ∉ connTrace usersDb ToolCall.listTables ∧
    ConnEvent.close ∉ connTrace usersDb (ToolCall.previewData "ghost" 5) := by
  constructor <;> decide

/-- C8 (amended): every tool invocation acquires exactly one connection, and
on every exit path the transaction is resolved — committed on success,
rolled back on failure — but the connection itself is never explicitly
closed by the scope. -/
theorem C8_amended (db : Database) (c : ToolCall) :
    (connTrace db c).count ConnEvent.acquire = 1 ∧
    (connTrace db c = [ConnEvent.acquire, ConnEvent.commit] ∨
      connTrace db c = [ConnEvent.acquire, ConnEvent.rollback]) ∧
    ConnEvent.close ∉ connTrace db c := by
  unfold connTrace
  cases hrun : runTool db c with
  | ok v => exact ⟨by simp, Or.inl (by simp), by simp⟩
  | error e => exact ⟨by simp, Or.inr (by simp), by simp⟩

/-- C9: every operation is deterministic in the database state: a second
call with identical arguments against the unmodified database returns the
identical result (the tools keep no state of their own between calls). -/
theorem C9_idempotent (db : Database) (c : ToolCall) (r : ToolResult)
    (db1 : Database) (h : runTool db c = Except.ok (r, db1))
    (hunmod : db1 = db) : runTool db1 c = Except.ok (r, db1) := by
  subst hunmod
  exact h

/-- C9 witness: `list_tables` run twice at the concrete database. -/
theorem C9_witness :
    runTool usersDb ToolCall.listTables =
      Except.ok (ToolResult.names ["users"], usersDb) :=
  C9_idempotent usersDb ToolCall.listTables (ToolResult.names ["users"])
    usersDb rfl rfl

/-- C10: `check_duplicate_rows` with an explicitly empty column list behaves
identically to the no-columns call (`columns or []` then falsy-empty-list
branching), and the returned `columns` field is `None`, not `[]`. -/
theorem C10_empty_columns (db : Database) (t : String) :
    check_duplicate_rows db t (some []) = check_duplicate_rows db t none ∧
    ∀ r, check_duplicate_rows db t (some []) = Except.ok r →
      r.columns = none := by
  refine ⟨rfl, ?_⟩
  intro r h
  unfold check_duplicate_rows at h
  cases hres : resolveTable db t with
  | error e => rw [hres] at h; simp at h
  | ok tbl =>
    rw [hres] at h
    cases hd : distinctRowsQuery tbl ((some ([] : List String)).getD []) with
    | error e =>
      rw [Option.getD_some] at hd
      simp only [Option.getD_some] at h
      rw [hd] at h
      simp at h
    | ok d =>
      rw [Option.getD_some] at hd
      simp only [Option.getD_some] at h
      rw [hd] at h
      simp only [Except.ok.injEq] at h
      rw [← h]
      simp

/-- C10 witness: the empty-column-list call at the concrete database. -/
theorem C10_witness :
    check_duplicate_rows usersDb "users" (some []) =
      check_duplicate_rows usersDb "users" none ∧
    ({ table := "users", columns := none, total_rows := 3, distinct_rows := 3,
       duplicate_rows := 0, duplicate_percentage := pctOf 0 3 } :
        DupStats).columns = none :=
  ⟨(C10_empty_columns usersDb "users").1,
   (C10_empty_columns usersDb "users").2 _ rfl⟩

/-- C5: a table name absent from every schema of the catalog makes
`get_schema` return the empty list (the catalog query matches zero rows; no
error), while `preview_data` on the same name fails with the engine's
undefined-table statement error, for any limit. -/
theorem C5_schema_vs_preview (db : Database) (name : String)
    (habs : ∀ s ∈ db.schemas, ∀ tb ∈ s.tables, tb.name ≠ name) :
    get_schema db name = [] ∧
    ∀ limit : Int, preview_data db name limit =
      Except.error (Err.engine (SqlError.undefinedTable name)) := by
  have hres : resolveTable db name =
      Except.error (SqlError.undefinedTable name) := by
    unfold resolveTable
    cases hfind : db.schemas.find? (fun s => s.name == "public") with
    | none => rfl
    | some s =>
      have hs : s ∈ db.schemas := List.mem_of_find?_eq_some hfind
      have hnone : s.tables.find? (fun tb => tb.name == name) = none := by
        apply List.find?_eq_none.mpr
        intro tb htb
        simpa using habs s hs tb htb
      simp [hnone]
  constructor
  · unfold get_schema catColsAnySchema
    have hfil : (infoSchemaColumns db).filter (fun x => x.2.1 == name) = [] := by
      apply List.filter_eq_nil_iff.mpr
      intro x hx
      unfold infoSchemaColumns at hx
      rw [List.mem_flatMap] at hx
      obtain ⟨s, hs, hx⟩ := hx
      rw [List.mem_flatMap] at hx
      obtain ⟨tb, htb, hx⟩ := hx
      rw [List.mem_map] at hx
      obtain ⟨cc, _hcc, rfl⟩ := hx
      simpa using habs s hs tb htb
    rw [hfil]
    rfl
  · intro limit
    unfold preview_data
    rw [hres]

/-- C5 witness: the nonexistent name `ghost` against the concrete database. -/
theorem C5_witness :
    (∀ s ∈ usersDb.schemas, ∀ tb ∈ s.tables, tb.name ≠ "ghost") ∧
    get_schema usersDb "ghost" = [] ∧
    preview_data usersDb "ghost" 5 =
      Except.error (Err.engine (SqlError.undefinedTable "ghost")) :=
  ⟨by decide,
   (C5_schema_vs_preview usersDb "ghost" (by decide)).1,
   (C5_schema_vs_preview usersDb "ghost" (by decide)).2 5⟩

/-- C6 counterexample: in `shadowDb` the `public` table `t` has one declared
column, yet `get_schema` returns two entries, because its catalog query does
not filter on `table_schema` and the `audit` schema also holds a table named
`t` — contradicting "exactly N entries … regardless of what other schemas in
the database contain". -/
theorem C6_counterexample :
    resolveTable shadowDb "t" = Except.ok shadowPubT ∧
    shadowPubT.cols.length = 1 ∧
    get_schema shadowDb "t" = [("a", "integer"), ("b", "text")] :=
  ⟨rfl, rfl, rfl⟩

/-- C6 (amended): `get_schema(T)` returns one entry per catalog column whose
`table_name` is `T`, across **all** schemas; when the public table `T` is the
only table of that name in the catalog this is exactly its N columns in
order, each entry carrying the column's declared type (non-empty whenever
declared types are non-empty). -/
theorem C6_amended (db : Database) (t : String) (tbl : Table)
    (_ht : resolveTable db t = Except.ok tbl)
    (hcat : catColsAnySchema db t = tbl.cols)
    (htypes : ∀ cc ∈ tbl.cols, cc.dataType ≠ "") :
    (get_schema db t).length = tbl.cols.length ∧
    (get_schema db t).map Prod.fst = tbl.cols.map (fun cc => cc.colName) ∧
    ∀ p ∈ get_schema db t, p.2 ≠ "" := by
  have hg : get_schema db t =
      tbl.cols.map (fun cc => (cc.colName, cc.dataType)) := by
    unfold get_schema
    rw [hcat]
  refine ⟨?_, ?_, ?_⟩
  · rw [hg, List.length_map]
  · rw [hg, List.map_map]
    rfl
  · intro p hp
    rw [hg, List.mem_map] at hp
    obtain ⟨cc, hcc, rfl⟩ := hp
    exact htypes cc hcc

/-- C6 witness: the single-schema concrete database, where the hypotheses of
the amendment hold and `get_schema users` has exactly the two declared
columns. -/
theorem C6_witness :
    resolveTable usersDb "users" = Except.ok usersTable ∧
    catColsAnySchema usersDb "users" = usersTable.cols ∧
    (∀ cc ∈ usersTable.cols, cc.dataType ≠ "") ∧
    (get_schema usersDb "users").length = usersTable.cols.length :=
  ⟨rfl, rfl, by decide,
   (C6_amended usersDb "users" usersTable rfl rfl (by decide)).1⟩

/-- C1 counterexample: at the concrete database, `get_column_stats` on the
nonexistent column `ghost` fails with the client-side Python `TypeError`
(from `fetchone()[0]` on an empty catalog result), not an engine error, and
`check_empty_strings` on the same nonexistent column of the existing table
`users` does not fail at all — it returns a zero count with the non-text
note.  Both contradict "fail with such an engine error". -/
theorem C1_counterexample :
    get_column_stats usersDb "users" "ghost" = Except.error Err.pyTypeError ∧
    check_empty_strings usersDb "users" "ghost" =
      Except.ok { table := "users", column := "ghost", data_type := none,
                  empty_string_count := 0, empty_string_percentage := 0,
                  note := some "column is not a text type" } := by
  refine ⟨rfl, ?_⟩
  rw [← pyRound2_zero]
  rfl

/-- C1 (amended): for a column name absent from the whole catalog,
`get_column_stats` fails with the client-side `TypeError` raised by
subscripting the `None` from `fetchone()`, before any statement touches the
table, while `check_empty_strings` on an existing table succeeds, reporting
`data_type = None`, a zero count and the explanatory note. -/
theorem C1_amended (db : Database) (t c : String) (tbl : Table)
    (ht : resolveTable db t = Except.ok tbl)
    (hany : catTypeAnySchema db t c = none)
    (hpub : catTypePublic db t c = none) :
    get_column_stats db t c = Except.error Err.pyTypeError ∧
    check_empty_strings db t c =
      Except.ok { table := t, column := c, data_type := none,
                  empty_string_count := 0, empty_string_percentage := 0,
                  note := some "column is not a text type" } := by
  constructor
  · unfold get_column_stats
    rw [hany]
  · unfold check_empty_strings
    rw [hpub, ht]
    simp [pyRound2_zero]

/-- C1 witness: the amendment instantiated at the concrete database. -/
theorem C1_witness :
    resolveTable usersDb "users" = Except.ok usersTable ∧
    catTypeAnySchema usersDb "users" "ghost" = none ∧
    catTypePublic usersDb "users" "ghost" = none ∧
    get_column_stats usersDb "users" "ghost" = Except.error Err.pyTypeError :=
  ⟨rfl, rfl, rfl,
   (C1_amended usersDb "users" "ghost" usersTable rfl rfl rfl).1⟩

/-- A member column name resolves: `colIndex` returns the first index. -/
theorem colIndex_ok_of_mem (tbl : Table) (c : String)
    (h : c ∈ tbl.cols.map (fun col => col.colName)) :
    colIndex tbl c = Except.ok ((colIndexAux c tbl.cols).getD 0) := by
  obtain ⟨i, hi⟩ :=
    Option.isSome_iff_exists.mp (colIndexAux_isSome_of_mem c tbl.cols h)
  unfold colIndex
  rw [hi]
  rfl

/-- The entry `check_null_values` builds for one (existing) column name. -/
def expectedNullEntry (tbl : Table) (c : String) : NullEntry :=
  { column := c
    null_count := countNullsAt tbl ((colIndexAux c tbl.cols).getD 0)
    null_percentage :=
      pctOf (countNullsAt tbl ((colIndexAux c tbl.cols).getD 0)) (countStar tbl)
    non_null_count :=
      countStar tbl - countNullsAt tbl ((colIndexAux c tbl.cols).getD 0) }

/-- The loop body of `check_null_values` succeeds on a member column name. -/
theorem nullEntryFor_ok (tbl : Table) (c : String)
    (h : c ∈ tbl.cols.map (fun col => col.colName)) :
    nullEntryFor tbl (countStar tbl) c = Except.ok (expectedNullEntry tbl c) := by
  unfold nullEntryFor
  rw [colIndex_ok_of_mem tbl c h]
  rfl

/-- The NULL count of a column never exceeds the row count. -/
theorem countNullsAt_le (tbl : Table) (i : Nat) :
    countNullsAt tbl i ≤ countStar tbl := by
  unfold countNullsAt countStar colValues
  calc List.countP (fun v => v == Value.vnull)
        (tbl.rows.map fun r => r.getD i Value.vnull)
      ≤ (tbl.rows.map fun r => r.getD i Value.vnull).length :=
        List.countP_le_length _
    _ = tbl.rows.length := List.length_map _ _

/-- C3: `check_null_values` yields one entry per declared column of the
table, in declaration order; every entry satisfies
`null_count + non_null_count = total rows`, and its percentage is
`round(null_count / total_rows * 100, 2)` for a non-empty table and `0` for
an empty one (the division being short-circuited away). -/
theorem C3_check_null_values (db : Database) (t : String) (tbl : Table)
    (ht : resolveTable db t = Except.ok tbl)
    (hcat : (catColsPublic db t).map (fun cc => cc.colName) =
      tbl.cols.map (fun cc => cc.colName)) :
    ∃ res, check_null_values db t = Except.ok res ∧
      res.map (fun e => e.column) = tbl.cols.map (fun cc => cc.colName) ∧
      ∀ e ∈ res, e.null_count + e.non_null_count = countStar tbl ∧
        e.null_percentage = (if 0 < countStar tbl then
          pyRound2 ((e.null_count : ℚ) / (countStar tbl : ℚ) * 100) else 0) := by
  have hmem : ∀ c ∈ (catColsPublic db t).map (fun cc => cc.colName),
      c ∈ tbl.cols.map (fun cc => cc.colName) := by
    intro c hc
    rw [← hcat]
    exact hc
  have hmapM :
      ((catColsPublic db t).map (fun cc => cc.colName)).mapM
          (nullEntryFor tbl (countStar tbl)) =
        Except.ok (((catColsPublic db t).map (fun cc => cc.colName)).map
          (expectedNullEntry tbl)) :=
    mapM_ok_of_forall _ _ _
      (fun c hc => nullEntryFor_ok tbl c (hmem c hc))
  refine ⟨((catColsPublic db t).map (fun cc => cc.colName)).map
    (expectedNullEntry tbl), ?_, ?_, ?_⟩
  · unfold check_null_values
    rw [ht]
    exact hmapM
  · rw [List.map_map]
    have hcomp : ((fun e : NullEntry => e.column) ∘ expectedNullEntry tbl) =
        fun c => c := funext fun c => rfl
    rw [hcomp, List.map_id']
    exact hcat
  · intro e he
    rw [List.mem_map] at he
    obtain ⟨c, _hc, rfl⟩ := he
    constructor
    · exact Nat.add_sub_cancel' (countNullsAt_le tbl _)
    · exact pctOf_eq _ _

/-- C3 witness: the concrete `users` table (3 rows, one NULL name). -/
theorem C3_witness :
    resolveTable usersDb "users" = Except.ok usersTable ∧
    (catColsPublic usersDb "users").map (fun cc => cc.colName) =
      usersTable.cols.map (fun cc => cc.colName) ∧
    ∃ res, check_null_values usersDb "users" = Except.ok res ∧
      res.map (fun e => e.column) =
        usersTable.cols.map (fun cc => cc.colName) ∧
      ∀ e ∈ res, e.null_count + e.non_null_count = countStar usersTable ∧
        e.null_percentage = (if 0 < countStar usersTable then
          pyRound2 ((e.null_count : ℚ) / (countStar usersTable : ℚ) * 100)
          else 0) :=
  ⟨rfl, rfl, C3_check_null_values usersDb "users" usersTable rfl rfl⟩

/-- Deduplication never increases length. -/
theorem dedup_length_le {α : Type} [DecidableEq α] (l : List α) :
    l.dedup.length ≤ l.length :=
  List.Sublist.length_le (List.dedup_sublist l)

/-- The distinct-count query of `check_duplicate_rows` succeeds when every
named column exists, and its result never exceeds the row count. -/
theorem distinctRowsQuery_ok_le (tbl : Table) (columns : List String)
    (h : ∀ c ∈ columns, c ∈ tbl.cols.map (fun col => col.colName)) :
    ∃ d, distinctRowsQuery tbl columns = Except.ok d ∧ d ≤ countStar tbl := by
  match columns with
  | [] =>
    exact ⟨tbl.rows.dedup.length, rfl, dedup_length_le _⟩
  | [c] =>
    have hci := colIndex_ok_of_mem tbl c (h c (by simp))
    refine ⟨countDistinct (colValues tbl ((colIndexAux c tbl.cols).getD 0)),
      ?_, ?_⟩
    · simp only [distinctRowsQuery, hci]
    · unfold countDistinct countStar
      calc ((colValues tbl ((colIndexAux c tbl.cols).getD 0)).filter
              (fun v => ! (v == Value.vnull))).dedup.length
          ≤ ((colValues tbl ((colIndexAux c tbl.cols).getD 0)).filter
              (fun v => ! (v == Value.vnull))).length := dedup_length_le _
        _ ≤ (colValues tbl ((colIndexAux c tbl.cols).getD 0)).length :=
            List.Sublist.length_le (List.filter_sublist _)
        _ = tbl.rows.length := by
            unfold colValues
            rw [List.length_map]
  | c1 :: c2 :: cs =>
    have hmapM := mapM_ok_of_forall (colIndex tbl)
      (fun c => (colIndexAux c tbl.cols).getD 0) (c1 :: c2 :: cs)
      (fun c hc => colIndex_ok_of_mem tbl c (h c hc))
    refine ⟨((tbl.rows.map fun r =>
        ((c1 :: c2 :: cs).map fun c => (colIndexAux c tbl.cols).getD 0).map
          fun i => r.getD i Value.vnull).dedup).length, ?_, ?_⟩
    · simp only [distinctRowsQuery, hmapM]
    · unfold countStar
      calc ((tbl.rows.map fun r =>
            ((c1 :: c2 :: cs).map fun c => (colIndexAux c tbl.cols).getD 0).map
              fun i => r.getD i Value.vnull).dedup).length
          ≤ (tbl.rows.map fun r =>
            ((c1 :: c2 :: cs).map fun c => (colIndexAux c tbl.cols).getD 0).map
              fun i => r.getD i Value.vnull).length := dedup_length_le _
        _ = tbl.rows.length := List.length_map _ _

/-- C4: `check_duplicate_rows` satisfies
`duplicate_rows = total_rows - distinct_rows` (exactly, also over ℤ, so the
difference is non-negative: `distinct_rows ≤ total_rows`), and its
percentage is 0 for an empty table, with no division performed. -/
theorem C4_check_duplicate_rows (db : Database) (t : String)
    (columnsArg : Option (List String)) (tbl : Table)
    (ht : resolveTable db t = Except.ok tbl)
    (hcols : ∀ c ∈ columnsArg.getD [],
      c ∈ tbl.cols.map (fun col => col.colName)) :
    ∃ r, check_duplicate_rows db t columnsArg = Except.ok r ∧
      r.total_rows = countStar tbl ∧
      r.distinct_rows ≤ r.total_rows ∧
      r.duplicate_rows = r.total_rows - r.distinct_rows ∧
      (r.duplicate_rows : ℤ) = (r.total_rows : ℤ) - (r.distinct_rows : ℤ) ∧
      (r.total_rows = 0 → r.duplicate_percentage = 0) := by
  obtain ⟨d, hd, hle⟩ := distinctRowsQuery_ok_le tbl (columnsArg.getD []) hcols
  refine ⟨{ table := t
            columns := if (columnsArg.getD []).isEmpty then none
              else some (columnsArg.getD [])
            total_rows := countStar tbl
            distinct_rows := d
            duplicate_rows := countStar tbl - d
            duplicate_percentage :=
              pctOf (countStar tbl - d) (countStar tbl) },
    ?_, rfl, hle, rfl, ?_, ?_⟩
  · simp only [check_duplicate_rows, ht, hd]
  · exact_mod_cast (Nat.cast_sub hle : ((countStar tbl - d : Nat) : ℤ) = _)
  · intro h0
    have h0' : countStar tbl = 0 := h0
    rw [pctOf_eq, h0']
    simp

/-- C4 witness: the concrete `users` table, scoped to the `name` column. -/
theorem C4_witness :
    resolveTable usersDb "users" = Except.ok usersTable ∧
    (∀ c ∈ (some ["name"] : Option (List String)).getD [],
      c ∈ usersTable.cols.map (fun col => col.colName)) ∧
    ∃ r, check_duplicate_rows usersDb "users" (some ["name"]) =
        Except.ok r ∧
      r.total_rows = countStar usersTable ∧
      r.distinct_rows ≤ r.total_rows ∧
      r.duplicate_rows = r.total_rows - r.distinct_rows ∧
      (r.duplicate_rows : ℤ) = (r.total_rows : ℤ) - (r.distinct_rows : ℤ) ∧
      (r.total_rows = 0 → r.duplicate_percentage = 0) :=
  ⟨rfl, by decide,
   C4_check_duplicate_rows usersDb "users" (some ["name"]) usersTable rfl
     (by decide)⟩

/-- The numeric readings are empty exactly when every value is NULL. -/
theorem numsOf_nil_iff :
    ∀ (vals : List Value) (nums : List ℚ), numsOf vals = Except.ok nums →
      (nums = [] ↔ ∀ v ∈ vals, v = Value.vnull) := by
  intro vals
  induction vals with
  | nil =>
    intro nums h
    simp only [numsOf, Except.ok.injEq] at h
    subst h
    simp
  | cons v rest ih =>
    intro nums h
    cases v with
    | vnull =>
      rw [show numsOf (Value.vnull :: rest) = numsOf rest from rfl] at h
      rw [ih nums h]
      simp
    | vint n =>
      rw [show numsOf (Value.vint n :: rest) =
          (numsOf rest).map (fun l => ((n : ℚ)) :: l) from rfl] at h
      cases hrest : numsOf rest with
      | error e => rw [hrest] at h; simp [Except.map] at h
      | ok l =>
        rw [hrest] at h
        simp only [Except.map, Except.ok.injEq] at h
        constructor
        · intro hn
          rw [← h] at hn
          simp at hn
        · intro hall
          exact absurd (hall (Value.vint n) (by simp)) (by simp)
    | vnum q =>
      rw [show numsOf (Value.vnum q :: rest) =
          (numsOf rest).map (fun l => q :: l) from rfl] at h
      cases hrest : numsOf rest with
      | error e => rw [hrest] at h; simp [Except.map] at h
      | ok l =>
        rw [hrest] at h
        simp only [Except.map, Except.ok.injEq] at h
        constructor
        · intro hn
          rw [← h] at hn
          simp at hn
        · intro hall
          exact absurd (hall (Value.vnum q) (by simp)) (by simp)
    | vstr s =>
      rw [show numsOf (Value.vstr s :: rest) =
          Except.error SqlError.typeMismatch from rfl] at h
      simp at h

/-- SQL `AVG` is NULL exactly on an empty reading list. -/
theorem aggAvg_eq_none_iff (nums : List ℚ) :
    aggAvg nums = none ↔ nums = [] := by
  cases nums <;> simp [aggAvg]

/-- The Python falsy test on `avg_val`: the field is `None` when the average
is absent *or exactly zero*. -/
theorem avgField_none_iff (o : Option ℚ) :
    avgField o = none ↔ o = none ∨ o = some 0 := by
  cases o with
  | none => simp [avgField]
  | some q => by_cases hq : q = 0 <;> simp [avgField, hq]

/-- C2 counterexample: the `delta` column of `zeroAvgDb` is of a recognized
numeric type and stores the non-null values `1` and `-1`, whose average is
exactly `0`; Python's `if avg_val` treats that zero as falsy, so the
returned `avg` is `None` — contradicting "avg is null only when all stored
values are null or the table has no rows". -/
theorem C2_counterexample :
    colValues zeroAvgTable 0 = [Value.vint 1, Value.vint (-1)] ∧
    (get_column_stats zeroAvgDb "readings" "delta").map
        (fun s => s.numStats.map (fun p => p.2.2)) =
      Except.ok (some none) := by
  refine ⟨rfl, ?_⟩
  have h1 : get_column_stats zeroAvgDb "readings" "delta" =
      Except.ok { column := "delta", data_type := "integer",
                  distinct_count := 2,
                  numStats := some
                    (listMinQ [((1 : Int) : ℚ), ((-1 : Int) : ℚ)],
                     listMaxQ [((1 : Int) : ℚ), ((-1 : Int) : ℚ)],
                     avgField (aggAvg [((1 : Int) : ℚ), ((-1 : Int) : ℚ)])) } :=
    rfl
  have h2 : aggAvg [((1 : Int) : ℚ), ((-1 : Int) : ℚ)] = some 0 := by
    unfold aggAvg
    norm_num
  rw [h1]
  simp only [Except.map, Option.map_some']
  rw [h2]
  simp [avgField]

/-- C2 (amended): on a column whose catalog type is in the recognized
numeric set, `get_column_stats` returns the `min`/`max`/`avg` keys, where
`avg` is `None` exactly when all stored values are NULL (or the table is
empty) **or the average is exactly zero**; any other average is reported
rounded to 2 decimal places. -/
theorem C2_amended (db : Database) (t c : String) (tbl : Table) (dt : String)
    (nums : List ℚ)
    (hdt : catTypeAnySchema db t c = some dt)
    (hnum : dt ∈ numericTypes)
    (ht : resolveTable db t = Except.ok tbl)
    (hc : c ∈ tbl.cols.map (fun col => col.colName))
    (hnums : numsOf (colValues tbl ((colIndexAux c tbl.cols).getD 0)) =
      Except.ok nums) :
    ∃ av, get_column_stats db t c = Except.ok
        { column := c, data_type := dt,
          distinct_count :=
            countDistinct (colValues tbl ((colIndexAux c tbl.cols).getD 0)),
          numStats := some (listMinQ nums, listMaxQ nums, av) } ∧
      (av = none ↔
        (∀ v ∈ colValues tbl ((colIndexAux c tbl.cols).getD 0),
          v = Value.vnull) ∨ aggAvg nums = some 0) ∧
      ∀ q, aggAvg nums = some q → ¬ q = 0 → av = some (pyRound2 q) := by
  have hci := colIndex_ok_of_mem tbl c hc
  refine ⟨avgField (aggAvg nums), ?_, ?_, ?_⟩
  · simp only [get_column_stats, hdt, ht, hci, hnums, hnum, if_true]
  · rw [avgField_none_iff]
    rw [aggAvg_eq_none_iff]
    rw [numsOf_nil_iff _ nums hnums]
  · intro q hq hq0
    rw [hq] at *
    simp [avgField, hq0]

/-- C2 witness: the `id` column of the concrete `users` table (values
1, 2, 3 — a nonzero average). -/
theorem C2_witness :
    catTypeAnySchema usersDb "users" "id" = some "integer" ∧
    "integer" ∈ numericTypes ∧
    resolveTable usersDb "users" = Except.ok usersTable ∧
    "id" ∈ usersTable.cols.map (fun col => col.colName) ∧
    numsOf (colValues usersTable ((colIndexAux "id" usersTable.cols).getD 0)) =
      Except.ok [((1 : Int) : ℚ), ((2 : Int) : ℚ), ((3 : Int) : ℚ)] ∧
    ∃ av, get_column_stats usersDb "users" "id" = Except.ok
        { column := "id", data_type := "integer",
          distinct_count := countDistinct (colValues usersTable
            ((colIndexAux "id" usersTable.cols).getD 0)),
          numStats := some
            (listMinQ [((1 : Int) : ℚ), ((2 : Int) : ℚ), ((3 : Int) : ℚ)],
             listMaxQ [((1 : Int) : ℚ), ((2 : Int) : ℚ), ((3 : Int) : ℚ)],
             av) } ∧
      (av = none ↔
        (∀ v ∈ colValues usersTable
          ((colIndexAux "id" usersTable.cols).getD 0), v = Value.vnull) ∨
        aggAvg [((1 : Int) : ℚ), ((2 : Int) : ℚ), ((3 : Int) : ℚ)] = some 0) ∧
      ∀ q, aggAvg [((1 : Int) : ℚ), ((2 : Int) : ℚ), ((3 : Int) : ℚ)] =
          some q → ¬ q = 0 → av = some (pyRound2 q) :=
  ⟨rfl, by simp [numericTypes], rfl, by decide, rfl,
   C2_amended usersDb "users" "id" usersTable "integer"
     [((1 : Int) : ℚ), ((2 : Int) : ℚ), ((3 : Int) : ℚ)]
     rfl (by simp [numericTypes]) rfl (by decide) rfl⟩
